import Mathlib

/-!
Verification of the PrairieLib `sql-db` data-access layer.

The definitions below are a shallow embedding of `lib/sql-db.js`:
* the parameter-substitution engine `paramsToArray`,
* the pool / transaction functions (`getClient`, `beginTransaction`,
  `rollbackWithClient`, `endTransaction`, `query`, `init`), modelled as
  trace-producing functions parametrised by the behaviour of the Postgres
  driver.
-/

namespace SqlDb

/-- A parameter value in a named-parameter object: a scalar or an array of
scalars (`_.isArray(params[v])` decides which branch the source takes). -/
inductive Value (α : Type) where
  | scalar (a : α)
  | arr (xs : List α)
deriving DecidableEq, Repr

/-- The `sql` argument of `paramsToArray`: either a string
(`_.isString(sql)`) or some non-string value. -/
inductive SqlIn where
  | str (s : String)
  | notStr
deriving DecidableEq, Repr

/-- The `params` argument of `paramsToArray`: an array (`_.isArray`), an
object-like mapping (`_.isObjectLike`), or neither. -/
inductive ParamsIn (α : Type) where
  | arr (xs : List α)
  | obj (kvs : List (String × Value α))
  | notObj
deriving DecidableEq, Repr

/-- Membership / lookup in a JS object, modelled as an association list;
`_(o).has(v)` is `lookupA o v ≠ none` and `o[v]` is the found value. -/
def lookupA {β : Type} : List (String × β) → String → Option β
  | [], _ => none
  | (k, b) :: t, v => if k = v then some b else lookupA t v

/-- The character class of the placeholder regex `/\$([-_a-zA-Z0-9]+)/`. -/
def isNameChar (c : Char) : Bool :=
  c = '-' || c = '_' || c.isAlpha || c.isDigit

/-- `re.exec(remainingSql)` for `re = /\$([-_a-zA-Z0-9]+)/`: returns
`some (pre, name, rest)` where `pre` is the text before the match
(`remaining.substring(0, result.index)`), `name` the captured group
(`result[1]`, nonempty), and `rest` the text after the whole match
(`remaining.substring(result.index + result[0].length)`); `none` when the
regex does not match. -/
def findMatch : List Char → Option (List Char × List Char × List Char)
  | [] => none
  | c :: rest =>
    if c = '$' then
      if rest.takeWhile isNameChar = [] then
        match findMatch rest with
        | none => none
        | some (p, n, r) => some (c :: p, n, r)
      else
        some ([], rest.takeWhile isNameChar, rest.dropWhile isNameChar)
    else
      match findMatch rest with
      | none => none
      | some (p, n, r) => some (c :: p, n, r)

theorem findMatch_rest_length {s p n r : List Char}
    (h : findMatch s = some (p, n, r)) : r.length < s.length := by
  induction s generalizing p n r with
  | nil => simp [findMatch] at h
  | cons c rest ih =>
    rw [findMatch] at h
    split at h
    · split at h
      · split at h
        · exact absurd h (by simp)
        · rename_i p' n' r' hfm
          simp only [Option.some.injEq, Prod.mk.injEq] at h
          obtain ⟨hp, hn2, hr⟩ := h
          subst hr
          exact Nat.lt_trans (ih hfm) (by simp)
      · simp only [Option.some.injEq, Prod.mk.injEq] at h
        obtain ⟨hp, hn2, hr⟩ := h
        subst hr
        calc (rest.dropWhile isNameChar).length
            ≤ rest.length := (List.dropWhile_suffix isNameChar).length_le
          _ < (c :: rest).length := by simp
    · split at h
      · exact absurd h (by simp)
      · rename_i p' n' r' hfm
        simp only [Option.some.injEq, Prod.mk.injEq] at h
        obtain ⟨hp, hn2, hr⟩ := h
        subst hr
        exact Nat.lt_trans (ih hfm) (by simp)

/-- `'$' + n` for the positional references generated by the source. -/
def dollar (n : Nat) : String := "$" ++ toString n

/-- `_.map(_.range(n + 1, n + len + 1), function(n) {return '$' + n;})`:
the positional references `$n+1 … $n+len`. -/
def dollarList (n len : Nat) : List String :=
  (List.range len).map (fun j => dollar (n + 1 + j))

/-- The binding assigned to an array-valued parameter:
`'ARRAY[' + dollarList.join(',') + ']'`. -/
def arrayBinding (n len : Nat) : String :=
  "ARRAY[" ++ String.intercalate "," (dollarList n len) ++ "]"

/-- The `while ((result = re.exec(remainingSql)) !== null)` loop of
`paramsToArray`, with the mutable locals (`remainingSql`, `processedSql`,
`nParams`, `map`, `paramsArray`) passed explicitly. -/
def ptaLoop {α : Type} (ps : List (String × Value α)) :
    List Char → String → Nat → List (String × String) → List α →
    Except String (String × List α)
  | remaining, processed, n, map, acc =>
    match hfm : findMatch remaining with
    | none => .ok (processed ++ String.mk remaining, acc)
    | some (pre, nm, rest) =>
      let v := String.mk nm
      match lookupA map v with
      | some b =>
        ptaLoop ps rest (processed ++ String.mk pre ++ b) n map acc
      | none =>
        match lookupA ps v with
        | none => .error ("Missing parameter: " ++ v)
        | some (.arr xs) =>
          ptaLoop ps rest (processed ++ String.mk pre ++ arrayBinding n xs.length)
            (n + xs.length) ((v, arrayBinding n xs.length) :: map) (acc ++ xs)
        | some (.scalar a) =>
          ptaLoop ps rest (processed ++ String.mk pre ++ dollar (n + 1))
            (n + 1) ((v, dollar (n + 1)) :: map) (acc ++ [a])
  termination_by remaining => remaining.length
  decreasing_by
    all_goals exact findMatch_rest_length hfm

/-- `paramsToArray(sql, params, callback)` from `lib/sql-db.js`, with the
callback's `(err, sql, params)` outcome returned as an `Except`. -/
def paramsToArray {α : Type} : SqlIn → ParamsIn α → Except String (String × List α)
  | .notStr, _ => .error "SQL must be a string"
  | .str s, .arr xs => .ok (s, xs)
  | .str _, .notObj => .error "params must be array or object"
  | .str s, .obj kvs => ptaLoop kvs s.data "" 0 [] []

/-- The placeholder names a template references, in the order the regex
loop of `paramsToArray` encounters them (with repetitions). -/
def templateNames : List Char → List String
  | s =>
    match hfm : findMatch s with
    | none => []
    | some (_, nm, rest) => String.mk nm :: templateNames rest
  termination_by s => s.length
  decreasing_by exact findMatch_rest_length hfm

theorem templateNames_of_findMatch_none {s : List Char}
    (h : findMatch s = none) : templateNames s = [] := by
  rw [templateNames, h]

theorem templateNames_of_findMatch_some {s pre nm rest : List Char}
    (h : findMatch s = some (pre, nm, rest)) :
    templateNames s = String.mk nm :: templateNames rest := by
  rw [templateNames, h]

theorem ptaLoop_of_findMatch_none {α : Type} (ps : List (String × Value α))
    {remaining : List Char} (processed : String) (n : Nat)
    (map : List (String × String)) (acc : List α)
    (h : findMatch remaining = none) :
    ptaLoop ps remaining processed n map acc =
      .ok (processed ++ String.mk remaining, acc) := by
  rw [ptaLoop, h]

theorem ptaLoop_step_bound {α : Type} (ps : List (String × Value α))
    {remaining pre nm rest : List Char} (processed : String) (n : Nat)
    (map : List (String × String)) (acc : List α) {b : String}
    (hfm : findMatch remaining = some (pre, nm, rest))
    (hb : lookupA map (String.mk nm) = some b) :
    ptaLoop ps remaining processed n map acc =
      ptaLoop ps rest (processed ++ String.mk pre ++ b) n map acc := by
  rw [ptaLoop, hfm]
  simp only [hb]

theorem ptaLoop_step_missing {α : Type} (ps : List (String × Value α))
    {remaining pre nm rest : List Char} (processed : String) (n : Nat)
    (map : List (String × String)) (acc : List α)
    (hfm : findMatch remaining = some (pre, nm, rest))
    (hb : lookupA map (String.mk nm) = none)
    (hps : lookupA ps (String.mk nm) = none) :
    ptaLoop ps remaining processed n map acc =
      .error ("Missing parameter: " ++ String.mk nm) := by
  rw [ptaLoop, hfm]
  simp only [hb, hps]

theorem ptaLoop_step_arr {α : Type} (ps : List (String × Value α))
    {remaining pre nm rest : List Char} (processed : String) (n : Nat)
    (map : List (String × String)) (acc : List α) {xs : List α}
    (hfm : findMatch remaining = some (pre, nm, rest))
    (hb : lookupA map (String.mk nm) = none)
    (hps : lookupA ps (String.mk nm) = some (.arr xs)) :
    ptaLoop ps remaining processed n map acc =
      ptaLoop ps rest (processed ++ String.mk pre ++ arrayBinding n xs.length)
        (n + xs.length) ((String.mk nm, arrayBinding n xs.length) :: map)
        (acc ++ xs) := by
  rw [ptaLoop, hfm]
  simp only [hb, hps]

theorem ptaLoop_step_scalar {α : Type} (ps : List (String × Value α))
    {remaining pre nm rest : List Char} (processed : String) (n : Nat)
    (map : List (String × String)) (acc : List α) {a : α}
    (hfm : findMatch remaining = some (pre, nm, rest))
    (hb : lookupA map (String.mk nm) = none)
    (hps : lookupA ps (String.mk nm) = some (.scalar a)) :
    ptaLoop ps remaining processed n map acc =
      ptaLoop ps rest (processed ++ String.mk pre ++ dollar (n + 1))
        (n + 1) ((String.mk nm, dollar (n + 1)) :: map) (acc ++ [a]) := by
  rw [ptaLoop, hfm]
  simp only [hb, hps]

theorem lookupA_cons_ne {β : Type} {k v : String} (b : β)
    (t : List (String × β)) (h : v ≠ k) :
    lookupA ((k, b) :: t) v = lookupA t v := by
  have hne : ¬ (k = v) := fun he => h he.symm
  simp only [lookupA, if_neg hne]

/-- If some placeholder name of the remaining template is bound neither in
`params` nor in the running binding map, the loop ends in a
missing-parameter error naming a template placeholder that is absent from
`params`. -/
theorem ptaLoop_missing_aux {α : Type} (ps : List (String × Value α)) :
    ∀ (k : Nat) (remaining : List Char), remaining.length ≤ k →
    ∀ (processed : String) (n : Nat) (map : List (String × String))
      (acc : List α) (v : String),
      v ∈ templateNames remaining → lookupA ps v = none →
      lookupA map v = none →
      ∃ w, ptaLoop ps remaining processed n map acc =
            .error ("Missing parameter: " ++ w) ∧
        lookupA ps w = none ∧ w ∈ templateNames remaining := by
  intro k
  induction k with
  | zero =>
    intro remaining hlen processed n map acc v hv hps hmap
    have hnil : remaining = [] := List.length_eq_zero.mp (Nat.le_zero.mp hlen)
    subst hnil
    rw [templateNames_of_findMatch_none (show findMatch [] = none from rfl)] at hv
    exact absurd hv (List.not_mem_nil v)
  | succ k ih =>
    intro remaining hlen processed n map acc v hv hps hmap
    cases hfm : findMatch remaining with
    | none =>
      rw [templateNames_of_findMatch_none hfm] at hv
      exact absurd hv (List.not_mem_nil v)
    | some t =>
      obtain ⟨pre, nm, rest⟩ := t
      have hrest : rest.length ≤ k := by
        have := findMatch_rest_length hfm
        omega
      rw [templateNames_of_findMatch_some hfm] at hv
      cases hb : lookupA map (String.mk nm) with
      | some b =>
        rw [ptaLoop_step_bound ps processed n map acc hfm hb]
        have hv' : v ∈ templateNames rest := by
          rcases List.mem_cons.mp hv with h1 | h1
          · subst h1
            rw [hb] at hmap
            exact absurd hmap (by simp)
          · exact h1
        obtain ⟨w, hw1, hw2, hw3⟩ := ih rest hrest _ n map acc v hv' hps hmap
        exact ⟨w, hw1, hw2, by
          rw [templateNames_of_findMatch_some hfm]
          exact List.mem_cons_of_mem _ hw3⟩
      | none =>
        cases hpsn : lookupA ps (String.mk nm) with
        | none =>
          refine ⟨String.mk nm,
            ptaLoop_step_missing ps processed n map acc hfm hb hpsn, hpsn, ?_⟩
          rw [templateNames_of_findMatch_some hfm]
          exact List.mem_cons_self _ _
        | some val =>
          have hvne : v ≠ String.mk nm := by
            intro he
            rw [he, hpsn] at hps
            exact absurd hps (by simp)
          have hv' : v ∈ templateNames rest := by
            rcases List.mem_cons.mp hv with h1 | h1
            · exact absurd h1 hvne
            · exact h1
          cases val with
          | arr xs =>
            rw [ptaLoop_step_arr ps processed n map acc hfm hb hpsn]
            have hmap' :
                lookupA ((String.mk nm, arrayBinding n xs.length) :: map) v
                  = none := by
              rw [lookupA_cons_ne _ _ hvne]
              exact hmap
            obtain ⟨w, hw1, hw2, hw3⟩ := ih rest hrest _ _ _ _ v hv' hps hmap'
            exact ⟨w, hw1, hw2, by
              rw [templateNames_of_findMatch_some hfm]
              exact List.mem_cons_of_mem _ hw3⟩
          | scalar a =>
            rw [ptaLoop_step_scalar ps processed n map acc hfm hb hpsn]
            have hmap' :
                lookupA ((String.mk nm, dollar (n + 1)) :: map) v = none := by
              rw [lookupA_cons_ne _ _ hvne]
              exact hmap
            obtain ⟨w, hw1, hw2, hw3⟩ := ih rest hrest _ _ _ _ v hv' hps hmap'
            exact ⟨w, hw1, hw2, by
              rw [templateNames_of_findMatch_some hfm]
              exact List.mem_cons_of_mem _ hw3⟩

/-- C1: when the substitution loop first meets a placeholder bound to an
array of length k while the positional counter is n, it assigns the
binding `ARRAY[$n+1,...,$n+k]`, consumes exactly k positional slots, and
appends all k values to the positional sequence in order; concretely, the
template `SELECT * FROM t WHERE a = $id AND b = ANY($tags)` with
`id = 5` and `tags = [1,2,3]` rewrites to
`SELECT * FROM t WHERE a = $1 AND b = ANY(ARRAY[$2,$3,$4])` with
positional values `[5,1,2,3]`. -/
theorem paramsToArray_array_param {α : Type} (ps : List (String × Value α))
    (remaining pre nm rest : List Char) (processed : String) (n : Nat)
    (map : List (String × String)) (acc : List α) (xs : List α)
    (hfm : findMatch remaining = some (pre, nm, rest))
    (hmap : lookupA map (String.mk nm) = none)
    (hps : lookupA ps (String.mk nm) = some (.arr xs)) :
    (ptaLoop ps remaining processed n map acc =
      ptaLoop ps rest (processed ++ String.mk pre ++ arrayBinding n xs.length)
        (n + xs.length) ((String.mk nm, arrayBinding n xs.length) :: map)
        (acc ++ xs)) ∧
    arrayBinding n xs.length = "ARRAY[" ++
      String.intercalate ","
        ((List.range xs.length).map (fun j => "$" ++ toString (n + 1 + j)))
      ++ "]" ∧
    paramsToArray (.str "SELECT * FROM t WHERE a = $id AND b = ANY($tags)")
      (.obj [("id", Value.scalar (5 : Int)), ("tags", Value.arr [1, 2, 3])]) =
      .ok ("SELECT * FROM t WHERE a = $1 AND b = ANY(ARRAY[$2,$3,$4])",
        [5, 1, 2, 3]) := by
  refine ⟨ptaLoop_step_arr ps processed n map acc hfm hmap hps, rfl, ?_⟩
  simp [paramsToArray, ptaLoop, findMatch, lookupA, arrayBinding, dollarList,
    dollar, isNameChar]
  rfl

theorem paramsToArray_array_param_witness :
    paramsToArray (.str "SELECT * FROM t WHERE a = $id AND b = ANY($tags)")
      (.obj [("id", Value.scalar (5 : Int)), ("tags", Value.arr [1, 2, 3])]) =
      .ok ("SELECT * FROM t WHERE a = $1 AND b = ANY(ARRAY[$2,$3,$4])",
        [5, 1, 2, 3]) :=
  (paramsToArray_array_param [("tags", Value.arr [(1 : Int), 2, 3])]
    ("$tags".data) [] ("tags".data) [] "" 0 [] [] [1, 2, 3]
    (by decide) (by decide) (by decide)).2.2

/-- C2: a placeholder whose name is already bound in the binding map is
replaced by its existing binding, consuming no new positional slots,
changing neither the binding map nor the positional sequence; concretely
`SELECT $x, $x` with scalar `x = 7` rewrites to `SELECT $1, $1` with
positional values `[7]`. -/
theorem paramsToArray_repeated_param {α : Type} (ps : List (String × Value α))
    (remaining pre nm rest : List Char) (processed : String) (n : Nat)
    (map : List (String × String)) (acc : List α) (b : String)
    (hfm : findMatch remaining = some (pre, nm, rest))
    (hb : lookupA map (String.mk nm) = some b) :
    (ptaLoop ps remaining processed n map acc =
      ptaLoop ps rest (processed ++ String.mk pre ++ b) n map acc) ∧
    paramsToArray (.str "SELECT $x, $x")
      (.obj [("x", Value.scalar (7 : Int))]) =
      .ok ("SELECT $1, $1", [7]) := by
  refine ⟨ptaLoop_step_bound ps processed n map acc hfm hb, ?_⟩
  simp [paramsToArray, ptaLoop, findMatch, lookupA, dollar, isNameChar]
  rfl

theorem paramsToArray_repeated_param_witness :
    paramsToArray (.str "SELECT $x, $x")
      (.obj [("x", Value.scalar (7 : Int))]) =
      .ok ("SELECT $1, $1", [7]) :=
  (paramsToArray_repeated_param [("x", Value.scalar (7 : Int))]
    ("$x".data) [] ("x".data) [] "" 1 [("x", "$1")] [7] "$1"
    (by decide) (by decide)).2

/-- C8: a template referencing a placeholder name absent from the
parameter mapping makes substitution fail with a missing-parameter error
naming a missing placeholder; no rewritten SQL and no positional values
are produced. -/
theorem paramsToArray_missing_param {α : Type} (s : String)
    (ps : List (String × Value α)) (v : String)
    (hv : v ∈ templateNames s.data) (hps : lookupA ps v = none) :
    ∃ w, paramsToArray (.str s) (.obj ps) =
        .error ("Missing parameter: " ++ w) ∧
      lookupA ps w = none ∧ w ∈ templateNames s.data :=
  ptaLoop_missing_aux ps s.data.length s.data le_rfl "" 0 [] [] v hv hps rfl

theorem paramsToArray_missing_param_witness :
    ∃ w, paramsToArray (.str "SELECT $x")
        (.obj ([] : List (String × Value Int))) =
        .error ("Missing parameter: " ++ w) ∧
      lookupA ([] : List (String × Value Int)) w = none ∧
      w ∈ templateNames ("SELECT $x".data) :=
  paramsToArray_missing_param "SELECT $x" [] "x"
    (by
      rw [templateNames_of_findMatch_some (show findMatch ("SELECT $x".data) =
        some ("SELECT ".data, "x".data, []) by decide)]
      rw [templateNames_of_findMatch_none
        (show findMatch ([] : List Char) = none from rfl)]
      decide)
    rfl

/-- A JS `Error` value: a message and the structured context attached to
it (`err.data`), whose values are strings or nested errors (strings are
encoded as errors with empty data). -/
inductive JsErr where
  | mk (msg : String) (data : List (String × JsErr))

/-- A plain string used as a context-data value. -/
def strV (s : String) : JsErr := .mk s []

def JsErr.msg : JsErr → String
  | .mk m _ => m

def JsErr.data : JsErr → List (String × JsErr)
  | .mk _ d => d

/-- Modelled from the spec: `error.addData(err, data)` from the
repository's `lib/error.js` (not under `src/`) attaches structured
context to an error and returns it — §7: compound failures "carry nested
context", "the more severe one as the primary and the original attached
as context". -/
def addData : JsErr → List (String × JsErr) → JsErr
  | .mk m d, d2 => .mk m (d ++ d2)

mutual

/-- Whether the error's message, or any error nested in its context data,
has message `s`. -/
def errMentions : JsErr → String → Bool
  | .mk m d, s => (m = s) || errMentionsList d s

def errMentionsList : List (String × JsErr) → String → Bool
  | [], _ => false
  | kv :: t, s => errMentions kv.2 s || errMentionsList t s

end

/-- An observable event on a checked-out client: a statement issued via
`client.query`, or a call of the pool's `done` release callback
(`destroy = true` when `done` is passed a truthy argument, which removes
the client from the pool instead of returning it). -/
inductive Ev where
  | stmt (s : String)
  | release (destroy : Bool)

def isRelease : Ev → Bool
  | .release _ => true
  | .stmt _ => false

def countRelease (t : List Ev) : Nat := t.countP isRelease

def countStmt (t : List Ev) (s : String) : Nat :=
  t.countP (fun e =>
    match e with
    | .stmt s2 => s2 = s
    | .release _ => false)

/-- The behaviour of the Postgres driver for one checked-out client:
the outcome `client.query(sql, ...)` reports for each statement text
(`none` = success). -/
structure Driver where
  q : String → Option JsErr

/-- The outcome of a `pool.connect` checkout: success, failure without a
client handle, or failure with a partially-obtained client handle (which
the source then passes to `done`). -/
inductive ConnectOutcome where
  | ok
  | failNoClient (e : JsErr)
  | failWithClient (e : JsErr)

def connectErr : ConnectOutcome → Option JsErr
  | .ok => none
  | .failNoClient e => some e
  | .failWithClient e => some e

/-- The `sql` argument as an error-context value. -/
def sqlData : SqlIn → JsErr
  | .str s => strV s
  | .notStr => strV "NOT A STRING"

/-- `queryWithClient(client, sql, params, callback)`: substitute
parameters, issue the statement, and annotate driver errors with a
serializable snapshot of the error and the original SQL
(`error.addData(err, {sqlError, sql, sqlParams, result})`). Returns the
trace of client events and the callback outcome. -/
def queryWithClientM {α : Type} (d : Driver) (sql : SqlIn)
    (params : ParamsIn α) : List Ev × Except JsErr Unit :=
  match paramsToArray sql params with
  | .error m => ([], .error (addData (JsErr.mk m []) [("sql", sqlData sql)]))
  | .ok (newSql, _) =>
    match d.q newSql with
    | some e =>
      ([.stmt newSql],
        .error (addData e [("sqlError", e), ("sql", sqlData sql)]))
    | none => ([.stmt newSql], .ok ())

/-- `rollbackWithClient(client, done, callback)`: issue `ROLLBACK;` on the
client, pass the rollback outcome to `done` (destroying the client when
the rollback failed), and propagate a rollback failure to the callback. -/
def rollbackWithClientM (d : Driver) : List Ev × Except JsErr Unit :=
  match d.q "ROLLBACK;" with
  | some e => ([.stmt "ROLLBACK;", .release true], .error e)
  | none => ([.stmt "ROLLBACK;", .release false], .ok ())

/-- `beginTransaction(callback)`: check out a client, issue
`START TRANSACTION;`; on failure of that statement, roll back and release
the just-acquired client, surfacing the rollback error if the rollback
fails and the begin error otherwise. On success the client is handed to
the caller unreleased. -/
def beginTransactionM (d : Driver) (c : ConnectOutcome) :
    List Ev × Except JsErr Unit :=
  match c with
  | .failNoClient e => ([], .error e)
  | .failWithClient e => ([.release true], .error e)
  | .ok =>
    match queryWithClientM d (.str "START TRANSACTION;")
        (ParamsIn.arr ([] : List Unit)) with
    | (t, .ok _) => (t, .ok ())
    | (t, .error e) =>
      match rollbackWithClientM d with
      | (t2, .error re) => (t ++ t2, .error re)
      | (t2, .ok _) => (t ++ t2, .error e)

/-- `endTransaction(client, done, err, callback)`: on a failure outcome
(`err` non-null) roll back, annotating the surfaced error with
`{rollback: 'success'}` on the original error, or
`{prevErr: err, rollback: 'fail'}` on the rollback error; on a success
outcome issue `COMMIT`, then release the client either way. -/
def endTransactionM (d : Driver) (e : Option JsErr) :
    List Ev × Except JsErr Unit :=
  match e with
  | some err =>
    match rollbackWithClientM d with
    | (t, .error re) =>
      (t, .error (addData re [("prevErr", err), ("rollback", strV "fail")]))
    | (t, .ok _) =>
      (t, .error (addData err [("rollback", strV "success")]))
  | none =>
    match queryWithClientM d (.str "COMMIT") (ParamsIn.arr ([] : List Unit)) with
    | (t, .error ce) => (t ++ [.release false], .error ce)
    | (t, .ok _) => (t ++ [.release false], .ok ())

/-- `query(sql, params, callback)` on an open pool: check out a client
from the shared pool, substitute parameters, issue the statement and
release the client. `handleError` releases the client (destroying it)
on checkout and driver errors; the substitution-failure branch propagates
the error without any release. -/
def queryM {α : Type} (d : Driver) (c : ConnectOutcome) (sql : SqlIn)
    (params : ParamsIn α) : List Ev × Except JsErr Unit :=
  match c with
  | .failNoClient e =>
    ([], .error (addData e [("sqlError", e), ("sql", sqlData sql)]))
  | .failWithClient e =>
    ([.release true], .error (addData e [("sqlError", e), ("sql", sqlData sql)]))
  | .ok =>
    match paramsToArray sql params with
    | .error m =>
      ([], .error (addData (JsErr.mk m []) [("sql", sqlData sql)]))
    | .ok (newSql, _) =>
      match d.q newSql with
      | some e =>
        ([.stmt newSql, .release true],
          .error (addData e [("sqlError", e), ("sql", sqlData sql)]))
      | none => ([.stmt newSql, .release false], .ok ())

/-- An observable event of `init`: the k-th `pool.connect` attempt, a
release of a partially-obtained client, or a `setTimeout` backoff delay
in milliseconds. -/
inductive InitEv where
  | attempt (k : Nat)
  | release (destroy : Bool)
  | delay (ms : Nat)

/-- `const retryTimeouts = [500, 1000, 2000, 5000, 10000];` -/
def retryTimeouts : List Nat := [500, 1000, 2000, 5000, 10000]

/-- The retries-exhausted error:
`` err.message = `Couldn't connect to Postgres after ${retryTimeouts.length} retries: ${err.message}` ``
mutates the message of the last underlying error, keeping its data. -/
def wrapConnect (e : JsErr) : JsErr :=
  .mk ("Couldn't connect to Postgres after " ++ toString retryTimeouts.length
    ++ " retries: " ++ e.msg) e.data

/-- The `tryConnect` closure of `init`, at retry counter `k`: attempt a
checkout; on success release the client and report success; on failure
release any partially-obtained client, then either fail with the wrapped
error (when the retries are exhausted) or wait `retryTimeouts[k]` and
retry with the counter incremented. -/
def tryConnect (attempts : Nat → ConnectOutcome) (k : Nat) :
    List InitEv × Except JsErr Unit :=
  match attempts k with
  | .ok => ([.attempt k, .release false], .ok ())
  | .failNoClient e =>
    if h : retryTimeouts.length ≤ k then
      ([.attempt k], .error (wrapConnect e))
    else
      let r := tryConnect attempts (k + 1)
      (.attempt k :: .delay (retryTimeouts.get ⟨k, by omega⟩) :: r.1, r.2)
  | .failWithClient e =>
    if h : retryTimeouts.length ≤ k then
      ([.attempt k, .release true], .error (wrapConnect e))
    else
      let r := tryConnect attempts (k + 1)
      (.attempt k :: .release true :: .delay (retryTimeouts.get ⟨k, by omega⟩)
        :: r.1, r.2)
  termination_by retryTimeouts.length - k

/-- `init(pgConfig, idleErrorHandler, callback)`: pool creation may itself
throw (`poolErr`), which is annotated with the config and surfaced with no
connect attempt; otherwise `tryConnect` starts at retry counter 0. -/
def initM (poolErr : Option JsErr) (attempts : Nat → ConnectOutcome) :
    List InitEv × Except JsErr Unit :=
  match poolErr with
  | some e => ([], .error (addData e [("pgConfig", strV "pgConfig")]))
  | none => tryConnect attempts 0

/-- The backoff delays of an `init` trace, in order. -/
def delaysOf (t : List InitEv) : List Nat :=
  t.filterMap (fun e =>
    match e with
    | .delay ms => some ms
    | _ => none)

/-- The number of `pool.connect` attempts in an `init` trace. -/
def attemptsOf (t : List InitEv) : Nat :=
  t.countP (fun e =>
    match e with
    | .attempt _ => true
    | _ => false)

/-- C9: when the parameters are supplied as an already-ordered sequence,
substitution is the identity: the template string and the sequence are
returned unchanged, whatever the sequence's contents and whatever
placeholder tokens the template contains. -/
theorem paramsToArray_positional_identity {α : Type} (s : String)
    (xs : List α) : paramsToArray (.str s) (.arr xs) = .ok (s, xs) := rfl

/-- C10: a non-string SQL argument fails with `SQL must be a string`; a
parameter set that is neither an array nor object-like fails with
`params must be array or object`; in both cases no rewritten SQL and no
positional values are produced. -/
theorem paramsToArray_type_errors {α : Type} (p : ParamsIn α) (s : String) :
    paramsToArray .notStr p = .error "SQL must be a string" ∧
    paramsToArray (.str s) (.notObj : ParamsIn α) =
      .error "params must be array or object" := ⟨rfl, rfl⟩

/-- A driver on which every statement succeeds. -/
def driverOk : Driver := ⟨fun _ => none⟩

/-- A driver on which every statement fails. -/
def driverAllFail : Driver := ⟨fun _ => some (JsErr.mk "query failed" [])⟩

/-- A driver on which both `START TRANSACTION;` and `ROLLBACK;` fail. -/
def driverBeginAndRollbackFail : Driver :=
  ⟨fun s =>
    if s = "START TRANSACTION;" then some (JsErr.mk "begin failed" [])
    else if s = "ROLLBACK;" then some (JsErr.mk "rollback failed" [])
    else none⟩

/-- C3: a `beginTransaction`/`endTransaction` lifecycle whose begin
succeeds releases the underlying client exactly once whatever branch
`endTransaction` takes (commit success, commit failure, rollback success,
rollback failure); a success outcome issues exactly one `COMMIT` and a
failure outcome exactly one `ROLLBACK;`. -/
theorem transaction_single_release (d : Driver) (e : Option JsErr)
    (hbegin : d.q "START TRANSACTION;" = none) :
    countRelease ((beginTransactionM d .ok).1 ++ (endTransactionM d e).1)
      = 1 ∧
    (e = none →
      countStmt ((beginTransactionM d .ok).1 ++ (endTransactionM d e).1)
        "COMMIT" = 1) ∧
    (∀ err, e = some err →
      countStmt ((beginTransactionM d .ok).1 ++ (endTransactionM d e).1)
        "ROLLBACK;" = 1) := by
  have hb : beginTransactionM d .ok = ([.stmt "START TRANSACTION;"], .ok ()) := by
    simp [beginTransactionM, queryWithClientM, paramsToArray, hbegin]
  cases e with
  | none =>
    cases hc : d.q "COMMIT" with
    | none =>
      simp [hb, endTransactionM, queryWithClientM, paramsToArray, hc,
        countRelease, countStmt, isRelease, List.countP, List.countP.go]
    | some ce =>
      simp [hb, endTransactionM, queryWithClientM, paramsToArray, hc,
        countRelease, countStmt, isRelease, List.countP, List.countP.go]
  | some err =>
    cases hr : d.q "ROLLBACK;" with
    | none =>
      simp [hb, endTransactionM, rollbackWithClientM, hr,
        countRelease, countStmt, isRelease, List.countP, List.countP.go]
    | some re =>
      simp [hb, endTransactionM, rollbackWithClientM, hr,
        countRelease, countStmt, isRelease, List.countP, List.countP.go]

theorem transaction_single_release_witness :
    countRelease ((beginTransactionM driverOk .ok).1
      ++ (endTransactionM driverOk none).1) = 1 ∧
    countStmt ((beginTransactionM driverOk .ok).1
      ++ (endTransactionM driverOk none).1) "COMMIT" = 1 :=
  ⟨(transaction_single_release driverOk none rfl).1,
   (transaction_single_release driverOk none rfl).2.1 rfl⟩

/-- C4 counterexample: on a driver where both `START TRANSACTION;` and
`ROLLBACK;` fail, `beginTransaction` surfaces the bare rollback error;
the original begin error is mentioned nowhere in the surfaced error, so
it is not retained as context. -/
theorem beginTransaction_drops_begin_error :
    (beginTransactionM driverBeginAndRollbackFail .ok).2 =
      .error (JsErr.mk "rollback failed" []) ∧
    errMentions (JsErr.mk "rollback failed" []) "begin failed" = false := by
  constructor
  · rfl
  · simp [errMentions, errMentionsList]

/-- C4 (amended): if the `START TRANSACTION;` statement fails, exactly one
rollback is attempted on the just-acquired client and the client is
released exactly once; the original begin error is surfaced when the
rollback succeeds, while if the rollback also fails the rollback error is
surfaced alone, without the original begin error attached as context. -/
theorem beginTransaction_failure_rollback (d : Driver) (e : JsErr)
    (hbegin : d.q "START TRANSACTION;" = some e) :
    countStmt (beginTransactionM d .ok).1 "ROLLBACK;" = 1 ∧
    countRelease (beginTransactionM d .ok).1 = 1 ∧
    (d.q "ROLLBACK;" = none →
      (beginTransactionM d .ok).2 = .error (addData e
        [("sqlError", e), ("sql", strV "START TRANSACTION;")])) ∧
    (∀ re, d.q "ROLLBACK;" = some re →
      (beginTransactionM d .ok).2 = .error re) := by
  cases hr : d.q "ROLLBACK;" with
  | none =>
    simp [beginTransactionM, queryWithClientM, rollbackWithClientM,
      paramsToArray, hbegin, hr, sqlData, countRelease, countStmt, isRelease,
      List.countP, List.countP.go]
  | some re =>
    simp [beginTransactionM, queryWithClientM, rollbackWithClientM,
      paramsToArray, hbegin, hr, sqlData, countRelease, countStmt, isRelease,
      List.countP, List.countP.go]

theorem beginTransaction_failure_rollback_witness :
    countStmt (beginTransactionM driverAllFail .ok).1 "ROLLBACK;" = 1 ∧
    countRelease (beginTransactionM driverAllFail .ok).1 = 1 ∧
    (beginTransactionM driverAllFail .ok).2 =
      .error (JsErr.mk "query failed" []) :=
  ⟨(beginTransaction_failure_rollback driverAllFail
      (JsErr.mk "query failed" []) rfl).1,
   (beginTransaction_failure_rollback driverAllFail
      (JsErr.mk "query failed" []) rfl).2.1,
   (beginTransaction_failure_rollback driverAllFail
      (JsErr.mk "query failed" []) rfl).2.2.2 (JsErr.mk "query failed" []) rfl⟩

/-- C5: `endTransaction` with a failure outcome issues exactly one
`ROLLBACK;` and exactly one release; when the rollback succeeds the
original triggering error is surfaced annotated `rollback: success`;
when the rollback fails the rollback error is surfaced annotated with the
original error as `prevErr` and `rollback: fail`, and the client is still
released. -/
theorem endTransaction_failure_path (d : Driver) (err : JsErr) :
    countStmt (endTransactionM d (some err)).1 "ROLLBACK;" = 1 ∧
    countRelease (endTransactionM d (some err)).1 = 1 ∧
    (d.q "ROLLBACK;" = none →
      (endTransactionM d (some err)).2 =
        .error (addData err [("rollback", strV "success")])) ∧
    (∀ re, d.q "ROLLBACK;" = some re →
      (endTransactionM d (some err)).2 =
        .error (addData re [("prevErr", err), ("rollback", strV "fail")])) := by
  cases hr : d.q "ROLLBACK;" with
  | none =>
    simp [endTransactionM, rollbackWithClientM, hr, countRelease, countStmt,
      isRelease, List.countP, List.countP.go]
  | some re =>
    simp [endTransactionM, rollbackWithClientM, hr, countRelease, countStmt,
      isRelease, List.countP, List.countP.go]

theorem endTransaction_failure_path_witness :
    countStmt (endTransactionM driverOk (some (JsErr.mk "boom" []))).1
      "ROLLBACK;" = 1 ∧
    (endTransactionM driverOk (some (JsErr.mk "boom" []))).2 =
      .error (addData (JsErr.mk "boom" []) [("rollback", strV "success")]) :=
  ⟨(endTransaction_failure_path driverOk (JsErr.mk "boom" [])).1,
   (endTransaction_failure_path driverOk (JsErr.mk "boom" [])).2.2.1 rfl⟩

/-- C6: `query` on the shared pool releases the checked-out client
exactly once on the success path and on the driver-error path, but on the
parameter-substitution failure path it returns the error to the caller
without ever calling `done` — the client is never released, contradicting
the release-exactly-once claim. -/
theorem query_substitution_error_leaks_client :
    countRelease (queryM driverOk .ok (.str "SELECT $x")
      (ParamsIn.obj ([] : List (String × Value Int)))).1 = 0 ∧
    (queryM driverOk .ok (.str "SELECT $x")
      (ParamsIn.obj ([] : List (String × Value Int)))).2 =
      .error (addData (JsErr.mk "Missing parameter: x" [])
        [("sql", strV "SELECT $x")]) ∧
    countRelease (queryM driverOk .ok (.str "SELECT 1")
      (ParamsIn.obj ([] : List (String × Value Int)))).1 = 1 ∧
    countRelease (queryM driverAllFail .ok (.str "SELECT 1")
      (ParamsIn.obj ([] : List (String × Value Int)))).1 = 1 := by
  refine ⟨?_, ?_, ?_, ?_⟩ <;>
    simp [queryM, paramsToArray, ptaLoop, findMatch, lookupA, isNameChar,
      driverOk, driverAllFail, sqlData, strV, countRelease, isRelease,
      List.countP, List.countP.go]

theorem tryConnect_fail_step (attempts : Nat → ConnectOutcome) (k : Nat)
    (e : JsErr) (hk : k < retryTimeouts.length)
    (hfail : connectErr (attempts k) = some e) :
    delaysOf (tryConnect attempts k).1 =
      retryTimeouts.get ⟨k, hk⟩ :: delaysOf (tryConnect attempts (k + 1)).1 ∧
    attemptsOf (tryConnect attempts k).1 =
      1 + attemptsOf (tryConnect attempts (k + 1)).1 ∧
    (tryConnect attempts k).2 = (tryConnect attempts (k + 1)).2 := by
  cases hc : attempts k with
  | ok => rw [hc] at hfail; exact absurd hfail (by simp [connectErr])
  | failNoClient e2 =>
    rw [tryConnect, hc]
    simp [dif_neg (not_le.mpr hk), delaysOf, attemptsOf, List.countP_cons,
      List.filterMap_cons]
    omega
  | failWithClient e2 =>
    rw [tryConnect, hc]
    simp [dif_neg (not_le.mpr hk), delaysOf, attemptsOf, List.countP_cons,
      List.filterMap_cons]
    omega

theorem tryConnect_last (attempts : Nat → ConnectOutcome) (e : JsErr)
    (hfail : connectErr (attempts 5) = some e) :
    delaysOf (tryConnect attempts 5).1 = [] ∧
    attemptsOf (tryConnect attempts 5).1 = 1 ∧
    (tryConnect attempts 5).2 = .error (wrapConnect e) := by
  cases hc : attempts 5 with
  | ok => rw [hc] at hfail; exact absurd hfail (by simp [connectErr])
  | failNoClient e2 =>
    rw [hc] at hfail
    simp only [connectErr, Option.some.injEq] at hfail
    subst hfail
    rw [tryConnect, hc]
    simp [dif_pos (show retryTimeouts.length ≤ 5 by decide), delaysOf,
      attemptsOf, List.countP_cons, List.filterMap_cons]
  | failWithClient e2 =>
    rw [hc] at hfail
    simp only [connectErr, Option.some.injEq] at hfail
    subst hfail
    rw [tryConnect, hc]
    simp [dif_pos (show retryTimeouts.length ≤ 5 by decide), delaysOf,
      attemptsOf, List.countP_cons, List.filterMap_cons]

/-- C7: when every connectivity attempt fails, `init` makes the initial
attempt plus exactly five retries, waiting 500, 1000, 2000, 5000 and
10000 ms between attempts, and fails with an error wrapping the last
underlying error and reporting the retry count; an error thrown while
creating the pool object itself is surfaced immediately, with no connect
attempt and no retry. -/
theorem init_retry_schedule (attempts : Nat → ConnectOutcome) (e5 : JsErr)
    (hfail : ∀ k, k ≤ 5 → connectErr (attempts k) ≠ none)
    (h5 : connectErr (attempts 5) = some e5) :
    delaysOf (initM none attempts).1 = [500, 1000, 2000, 5000, 10000] ∧
    attemptsOf (initM none attempts).1 = 6 ∧
    (initM none attempts).2 = .error (wrapConnect e5) ∧
    (wrapConnect e5).msg =
      "Couldn't connect to Postgres after 5 retries: " ++ e5.msg ∧
    ∀ pe, (initM (some pe) attempts).1 = [] ∧
      (initM (some pe) attempts).2 =
        .error (addData pe [("pgConfig", strV "pgConfig")]) := by
  obtain ⟨e0, he0⟩ := Option.ne_none_iff_exists'.mp (hfail 0 (by omega))
  obtain ⟨e1, he1⟩ := Option.ne_none_iff_exists'.mp (hfail 1 (by omega))
  obtain ⟨e2, he2⟩ := Option.ne_none_iff_exists'.mp (hfail 2 (by omega))
  obtain ⟨e3, he3⟩ := Option.ne_none_iff_exists'.mp (hfail 3 (by omega))
  obtain ⟨e4, he4⟩ := Option.ne_none_iff_exists'.mp (hfail 4 (by omega))
  have s0 := tryConnect_fail_step attempts 0 e0 (by decide) he0
  have s1 := tryConnect_fail_step attempts 1 e1 (by decide) he1
  have s2 := tryConnect_fail_step attempts 2 e2 (by decide) he2
  have s3 := tryConnect_fail_step attempts 3 e3 (by decide) he3
  have s4 := tryConnect_fail_step attempts 4 e4 (by decide) he4
  have s5 := tryConnect_last attempts e5 h5
  have hinit : initM none attempts = tryConnect attempts 0 := rfl
  refine ⟨?_, ?_, ?_, rfl, fun pe => ⟨rfl, rfl⟩⟩
  · rw [hinit, s0.1, s1.1, s2.1, s3.1, s4.1, s5.1]
    rfl
  · rw [hinit, s0.2.1, s1.2.1, s2.2.1, s3.2.1, s4.2.1, s5.2.1]
  · rw [hinit, s0.2.2, s1.2.2, s2.2.2, s3.2.2, s4.2.2, s5.2.2]

/-- Connect attempts against an unreachable host: every checkout fails
with no client handle. -/
def alwaysRefused : Nat → ConnectOutcome :=
  fun _ => .failNoClient (JsErr.mk "ECONNREFUSED" [])

theorem init_retry_schedule_witness :
    delaysOf (initM none alwaysRefused).1 = [500, 1000, 2000, 5000, 10000] ∧
    attemptsOf (initM none alwaysRefused).1 = 6 ∧
    (initM none alwaysRefused).2 =
      .error (wrapConnect (JsErr.mk "ECONNREFUSED" [])) :=
  ⟨(init_retry_schedule alwaysRefused (JsErr.mk "ECONNREFUSED" [])
      (fun k _ => by simp [alwaysRefused, connectErr]) rfl).1,
   (init_retry_schedule alwaysRefused (JsErr.mk "ECONNREFUSED" [])
      (fun k _ => by simp [alwaysRefused, connectErr]) rfl).2.1,
   (init_retry_schedule alwaysRefused (JsErr.mk "ECONNREFUSED" [])
      (fun k _ => by simp [alwaysRefused, connectErr]) rfl).2.2.1⟩

end SqlDb
